import Mathlib

/-!
Verification of the pipeline orchestration and resilience layer of the
global-publish repository: the two-tier content cache, the validation rule
results, the platform-fit fallback, the failure-recovery manager with its
backoff table, and the publishing engine.

Modelling conventions (shallow embedding of the Python sources):
* `datetime` values are modelled as `Int` epoch seconds; every operation that
  calls `datetime.now()` takes an explicit `now : Int` parameter (all the
  `datetime.now()` calls inside one Python method happen within the same call,
  so a single parameter per call is used).
* Each cache directory is modelled as an association list from file stem to
  file content; a file that is unparseable or structurally invalid (any
  exception while reading it) is the `corrupt` constructor.
* `json.dump` followed by `json.load` on the records written by the code is
  assumed to round-trip the stored fields.
* Free-form `metadata` dictionaries are a type parameter `μ`; the Twitter
  validator instantiates it with the shape it actually reads.
* The md5-based `_get_cache_key` derivation is deterministic glue shared by
  the put and get paths; the operations are therefore modelled at the level
  of the already-computed cache key string.
-/

/-! ## Association-list model of a cache directory / Python dict -/

/-- Lookup by key in an association list (first match), mirroring both a
directory lookup by file name and a Python dict access. -/
def alFind (k : String) : List (String × α) → Option α
  | [] => none
  | (k₁, v) :: t => if k₁ = k then some v else alFind k t

/-- Write through a key: replace the value at `k` if present (file overwrite
/ dict update), otherwise append a new entry. -/
def alInsert (k : String) (v : α) : List (String × α) → List (String × α)
  | [] => [(k, v)]
  | (k₁, v₁) :: t => if k₁ = k then (k, v) :: t else (k₁, v₁) :: alInsert k v t

/-- Remove the entry at `k` (file unlink). Directory keys are unique, so a
filter is the faithful model. -/
def alErase (k : String) (l : List (String × α)) : List (String × α) :=
  l.filter (fun e => !(e.1 = k : Bool))

/-! ## Data model (src/core/models.py) -/

/-- `ValidationResult` dataclass: validity flag plus the three finding lists. -/
structure ValidationResult where
  is_valid : Bool
  warnings : List String
  errors : List String
  suggestions : List String
deriving DecidableEq, Repr

/-- `ContentDNA` dataclass: structured attributes extracted from the source
content (src/core/models.py lines 13-43, including the `__post_init__`
defaults, which replace `None` lists by empty lists). -/
structure ContentDNA where
  value_proposition : String
  technical_details : List String
  problem_solved : String
  target_audience : String
  key_metrics : List String
  unique_aspects : List String
  limitations : List String
  content_type : String
  controversy_potential : String := "low"
  novelty_score : String := "incremental"
  show_dont_tell : String := "none"
  best_fit_communities : List String := []
  visual_opportunities : List String := []
  platform_constraints : List String := []
  project_stage : String := "unknown"
  founder_story : String := ""
deriving DecidableEq, Repr

/-- `PlatformContent` dataclass. The free-form `metadata` dict is the type
parameter `μ`. `validation` is declared as `ValidationResult` in the Python
type hints but the cache reconstruction path can produce `None`, so it is an
`Option` here. -/
structure PlatformContent (μ : Type) where
  platform : String
  title : String
  body : String
  metadata : μ
  validation : Option ValidationResult
  scheduled_time : Option String := none
deriving DecidableEq, Repr

/-- `PublishResult` dataclass. -/
structure PublishResult (μ : Type) where
  platform : String
  success : Bool
  url : Option String := none
  error : Option String := none
  metadata : Option μ := none
deriving DecidableEq, Repr

/-! ## Failure records (src/core/cache_manager.py) -/

/-- The flat JSON object written by `save_failed_post` (lines 235-250) and
read back by `_load_failed_posts`: the content is stored without its
validation, and `max_retries` is read back with `data.get('max_retries', 3)`,
hence the `Option`. -/
structure FailedData (μ : Type) where
  platform : String
  c_platform : String
  c_title : String
  c_body : String
  c_metadata : μ
  error : String
  attempt_count : Nat
  created_at : Int
  last_attempt : Int
  next_retry : Int
  max_retries : Option Nat := some 3
deriving DecidableEq, Repr

/-- In-memory `FailedPost` dataclass (cache_manager.py lines 23-33). -/
structure FailedPost (μ : Type) where
  platform : String
  content : PlatformContent μ
  error : String
  attempt_count : Nat
  created_at : Int
  last_attempt : Int
  next_retry : Int
  max_retries : Nat := 3
deriving DecidableEq, Repr

/-! ## Backoff table (`CacheManager._calculate_next_retry`, lines 352-359) -/

namespace CacheManager

/-- `delays = [1, 5, 30]  # minutes` -/
def delays : List Nat := [1, 5, 30]

/-- `delay_index = min(attempt_count - 1, len(delays) - 1)` followed by
`delay_minutes = delays[delay_index]`. -/
def delay_minutes (attempt_count : Nat) : Nat :=
  delays.getD (min (attempt_count - 1) (delays.length - 1)) 0

/-- `return datetime.now() + timedelta(minutes=delay_minutes)` -/
def calculate_next_retry (now : Int) (attempt_count : Nat) : Int :=
  now + (delay_minutes attempt_count : Int) * 60

end CacheManager

/-- C2: for every attempt count `n ≥ 1`, the backoff delay used to compute
`next_retry` is 1 minute for `n = 1`, 5 minutes for `n = 2`, and 30 minutes
for every `n ≥ 3`: the table clamps at its last value once exhausted, never
grows further and never resets, and `next_retry` is `now` plus that delay in
seconds. -/
theorem backoff_table_clamps (n : Nat) (h : 1 ≤ n) (now : Int) :
    CacheManager.delay_minutes n = (if n = 1 then 1 else if n = 2 then 5 else 30) ∧
    CacheManager.calculate_next_retry now n =
      now + (CacheManager.delay_minutes n : Int) * 60 := by
  refine ⟨?_, rfl⟩
  match n, h with
  | 1, _ => rfl
  | 2, _ => rfl
  | (k+3), _ =>
    have h1 : ¬ (k + 3 = 1) := by omega
    have h2 : ¬ (k + 3 = 2) := by omega
    rw [if_neg h1, if_neg h2]
    have hmin : min (k + 3 - 1) (CacheManager.delays.length - 1) = 2 := by
      show min (k + 3 - 1) (3 - 1) = 2
      omega
    show CacheManager.delays.getD (min (k + 3 - 1) (CacheManager.delays.length - 1)) 0 = 30
    rw [hmin]
    rfl

/-- Witness for C2 at the concrete attempt counts 1, 2, 3 and 4. -/
theorem backoff_table_clamps_witness :
    (1 ≤ 1 ∧ CacheManager.delay_minutes 1 = (if 1 = 1 then 1 else if 1 = 2 then 5 else 30)) ∧
    (1 ≤ 4 ∧ CacheManager.delay_minutes 4 = (if 4 = 1 then 1 else if 4 = 2 then 5 else 30)) := by
  exact ⟨⟨by decide, (backoff_table_clamps 1 (by decide) 0).1⟩,
    ⟨by decide, (backoff_table_clamps 4 (by decide) 0).1⟩⟩

/-! ## Cache state (`CacheManager`, src/core/cache_manager.py) -/

/-- In-memory `CacheEntry` dataclass (lines 12-20). The memory cache is only
ever populated with DNA values, so `data` is a `ContentDNA`. -/
structure CacheEntry where
  key : String
  data : ContentDNA
  created_at : Int
  expires_at : Option Int := none
  access_count : Nat := 0
  last_accessed : Option Int := none
deriving DecidableEq, Repr

/-- The fields of a DNA cache file that `get_cached_dna` reads back
(`dna`, `created_at`, `expires_at`; the stored `content_hash` and
`original_content_length` are never read). -/
structure DnaRecord where
  dna : ContentDNA
  created_at : Int
  expires_at : Int
deriving DecidableEq, Repr

/-- A file in the DNA cache directory: either a parseable record or a file
any read of which raises (unparseable JSON, missing fields, bad dates, ...). -/
inductive DnaFile where
  | corrupt : DnaFile
  | ok : DnaRecord → DnaFile
deriving DecidableEq, Repr

/-- The `content` object stored by `cache_platform_content` (lines 161-167):
platform, title, body, metadata, and the validation (or `null`).
`scheduled_time` is not stored. -/
structure StoredContent (μ : Type) where
  platform : String
  title : String
  body : String
  metadata : μ
  validation : Option ValidationResult
deriving DecidableEq, Repr

/-- A parseable platform-content cache file (lines 158-170). -/
structure ContentRecord (μ : Type) where
  platform : String
  content_dna_key : String
  content : StoredContent μ
  created_at : Int
  expires_at : Int
deriving DecidableEq, Repr

/-- A file in the platform-content cache directory. -/
inductive ContentFile (μ : Type) where
  | corrupt : ContentFile μ
  | ok : ContentRecord μ → ContentFile μ
deriving DecidableEq, Repr

/-- A file in the failed-posts directory. -/
inductive FailedFile (μ : Type) where
  | corrupt : FailedFile μ
  | ok : FailedData μ → FailedFile μ
deriving DecidableEq, Repr

/-- The mutable state of a `CacheManager`: the in-process memory cache and
the three persisted directories the claims touch. -/
structure CMState (μ : Type) where
  memory : List (String × CacheEntry)
  dnaFiles : List (String × DnaFile)
  contentFiles : List (String × ContentFile μ)
  failedFiles : List (String × FailedFile μ)
deriving DecidableEq, Repr

namespace CacheManager

/-- `cache_content_dna` (lines 67-95): write the DNA record to the file cache
with `expires_at = now + ttl_hours` and mirror it into the memory cache under
`"dna_" ++ key`; returns the cache key. `ttl_hours` is a Python `int`
(default 24), converted here to seconds. -/
def cache_content_dna (now : Int) (cache_key : String) (dna : ContentDNA)
    (ttl_hours : Int) (st : CMState μ) : String × CMState μ :=
  let expires_at := now + ttl_hours * 3600
  let st₁ := { st with
    dnaFiles := alInsert cache_key (DnaFile.ok ⟨dna, now, expires_at⟩) st.dnaFiles }
  let entry : CacheEntry :=
    { key := cache_key, data := dna, created_at := now, expires_at := some expires_at }
  (cache_key, { st₁ with memory := alInsert ("dna_" ++ cache_key) entry st₁.memory })

/-- The file-cache half of `get_cached_dna` (lines 114-148): on a parseable,
unexpired file, reconstruct the DNA and promote it into the memory cache with
`access_count = 1`; on an expired file, unlink it; on an unreadable file,
unlink it (`except` branch) — always returning `None` in the miss cases. -/
def get_cached_dna_file (now : Int) (cache_key : String) (st : CMState μ) :
    Option ContentDNA × CMState μ :=
  match alFind cache_key st.dnaFiles with
  | some (DnaFile.ok rec) =>
    if now < rec.expires_at then
      let entry : CacheEntry :=
        { key := cache_key, data := rec.dna, created_at := rec.created_at,
          expires_at := some rec.expires_at, access_count := 1, last_accessed := some now }
      (some rec.dna, { st with memory := alInsert ("dna_" ++ cache_key) entry st.memory })
    else
      (none, { st with dnaFiles := alErase cache_key st.dnaFiles })
  | some DnaFile.corrupt =>
    (none, { st with dnaFiles := alErase cache_key st.dnaFiles })
  | none => (none, st)

/-- `get_cached_dna` (lines 97-148): check the memory cache first; a hit that
has not expired bumps the access bookkeeping and returns the data; an expired
memory entry is deleted and the file cache is consulted. `not entry.expires_at`
is Python truthiness: a `None` expiry never expires. -/
def get_cached_dna (now : Int) (cache_key : String) (st : CMState μ) :
    Option ContentDNA × CMState μ :=
  let memory_key := "dna_" ++ cache_key
  match alFind memory_key st.memory with
  | some entry =>
    match entry.expires_at with
    | none =>
      let entry₁ := { entry with access_count := entry.access_count + 1,
                                 last_accessed := some now }
      (some entry.data, { st with memory := alInsert memory_key entry₁ st.memory })
    | some x =>
      if now < x then
        let entry₁ := { entry with access_count := entry.access_count + 1,
                                   last_accessed := some now }
        (some entry.data, { st with memory := alInsert memory_key entry₁ st.memory })
      else
        get_cached_dna_file now cache_key { st with memory := alErase memory_key st.memory }
  | none => get_cached_dna_file now cache_key st

/-- `cache_platform_content` (lines 150-176): write the content record under
the key `platform ++ "_" ++ content_dna_key` with `expires_at = now +
ttl_hours` (default 6); returns the cache key. No memory tier is involved. -/
def cache_platform_content (now : Int) (content_dna_key : String) (platform : String)
    (content : PlatformContent μ) (ttl_hours : Int) (st : CMState μ) :
    String × CMState μ :=
  let cache_key := platform ++ "_" ++ content_dna_key
  let expires_at := now + ttl_hours * 3600
  let stored : StoredContent μ :=
    { platform := content.platform, title := content.title, body := content.body,
      metadata := content.metadata, validation := content.validation }
  let rec₁ : ContentRecord μ := ⟨platform, content_dna_key, stored, now, expires_at⟩
  (cache_key,
    { st with contentFiles := alInsert cache_key (ContentFile.ok rec₁) st.contentFiles })

/-- `get_cached_platform_content` (lines 178-216): file tier only. A
parseable, unexpired record is reconstructed (its `scheduled_time` is not
stored, so it comes back as `None`); an expired record is unlinked; an
unreadable file is unlinked; all miss cases return `None`. -/
def get_cached_platform_content (now : Int) (content_dna_key : String)
    (platform : String) (st : CMState μ) : Option (PlatformContent μ) × CMState μ :=
  let cache_key := platform ++ "_" ++ content_dna_key
  match alFind cache_key st.contentFiles with
  | some (ContentFile.ok rec) =>
    if now < rec.expires_at then
      (some { platform := rec.content.platform, title := rec.content.title,
              body := rec.content.body, metadata := rec.content.metadata,
              validation := rec.content.validation, scheduled_time := none }, st)
    else
      (none, { st with contentFiles := alErase cache_key st.contentFiles })
  | some ContentFile.corrupt =>
    (none, { st with contentFiles := alErase cache_key st.contentFiles })
  | none => (none, st)

end CacheManager

/-! ## Association-list lemmas -/

theorem alFind_alInsert_self (k : String) (v : α) (l : List (String × α)) :
    alFind k (alInsert k v l) = some v := by
  induction l with
  | nil => simp [alInsert, alFind]
  | cons e t ih =>
    by_cases h : e.1 = k
    · simp [alInsert, alFind, h]
    · cases e
      simp_all [alInsert, alFind, h]

theorem alFind_alInsert_ne (k k₁ : String) (v : α) (l : List (String × α))
    (h : k₁ ≠ k) : alFind k₁ (alInsert k v l) = alFind k₁ l := by
  induction l with
  | nil => simp [alInsert, alFind, Ne.symm h]
  | cons e t ih =>
    cases e with
    | mk ek ev =>
      by_cases he : ek = k
      · subst he
        simp [alInsert, alFind, Ne.symm h, h]
      · simp only [alInsert, if_neg he, alFind]
        by_cases hk : ek = k₁ <;> simp [hk, ih]

theorem alFind_alErase_self (k : String) (l : List (String × α)) :
    alFind k (alErase k l) = none := by
  induction l with
  | nil => rfl
  | cons e t ih =>
    cases e with
    | mk ek ev =>
      by_cases he : ek = k
      · simp [alErase, he, List.filter] at ih ⊢
        exact ih
      · simp only [alErase, List.filter] at ih ⊢
        simp [he, alFind, ih]

theorem alInsert_alInsert_self (k : String) (v₁ v₂ : α) (l : List (String × α)) :
    alInsert k v₂ (alInsert k v₁ l) = alInsert k v₂ l := by
  induction l with
  | nil => simp [alInsert]
  | cons e t ih =>
    cases e with
    | mk ek ev =>
      by_cases he : ek = k
      · simp [alInsert, he]
      · simp [alInsert, he, ih]

/-! ## Cache TTL correctness (C1) -/

/-- Helper: a platform-content `get` immediately after a `put` of `c` with
expiry `w + ttl` hits exactly when `now` is strictly before the expiry, and
returns `c` with its (unstored) `scheduled_time` cleared. -/
theorem cache_platform_roundtrip (now w ttl : Int) (dkey pf : String)
    (c : PlatformContent μ) (st : CMState μ) :
    (CacheManager.get_cached_platform_content now dkey pf
      (CacheManager.cache_platform_content w dkey pf c ttl st).2).1
      = if now < w + ttl * 3600 then some { c with scheduled_time := none } else none := by
  simp only [CacheManager.cache_platform_content, CacheManager.get_cached_platform_content,
    alFind_alInsert_self]
  split <;> rfl

/-- Helper: the post-state of a platform-content `get` after a `put`, when the
entry has expired, has the cache file unlinked. -/
theorem cache_platform_expired_evicts (now w ttl : Int) (dkey pf : String)
    (c : PlatformContent μ) (st : CMState μ) (h : w + ttl * 3600 ≤ now) :
    alFind (pf ++ "_" ++ dkey)
      ((CacheManager.get_cached_platform_content now dkey pf
        (CacheManager.cache_platform_content w dkey pf c ttl st).2).2).contentFiles = none := by
  have hlt : ¬ now < w + ttl * 3600 := by omega
  simp only [CacheManager.cache_platform_content, CacheManager.get_cached_platform_content,
    alFind_alInsert_self, if_neg hlt]
  exact alFind_alErase_self _ _

/-- Helper: a DNA `get` immediately after a `put` of `dna` with expiry
`w + ttl` hits exactly when `now` is strictly before the expiry. -/
theorem cache_dna_roundtrip (now w ttl : Int) (key : String) (dna : ContentDNA)
    (st : CMState μ) :
    (CacheManager.get_cached_dna now key
      (CacheManager.cache_content_dna w key dna ttl st).2).1
      = if now < w + ttl * 3600 then some dna else none := by
  simp only [CacheManager.cache_content_dna, CacheManager.get_cached_dna,
    alFind_alInsert_self]
  split
  · rfl
  · next hlt =>
    simp only [CacheManager.get_cached_dna_file, alFind_alInsert_self, if_neg hlt]

/-- Helper: after a DNA `put` whose entry has expired by `now`, a `get`
deletes the memory entry and unlinks the cache file. -/
theorem cache_dna_expired_evicts (now w ttl : Int) (key : String) (dna : ContentDNA)
    (st : CMState μ) (h : w + ttl * 3600 ≤ now) :
    alFind ("dna_" ++ key)
      ((CacheManager.get_cached_dna now key
        (CacheManager.cache_content_dna w key dna ttl st).2).2).memory = none ∧
    alFind key
      ((CacheManager.get_cached_dna now key
        (CacheManager.cache_content_dna w key dna ttl st).2).2).dnaFiles = none := by
  have hlt : ¬ now < w + ttl * 3600 := by omega
  simp only [CacheManager.cache_content_dna, CacheManager.get_cached_dna,
    alFind_alInsert_self, if_neg hlt, CacheManager.get_cached_dna_file]
  constructor
  · exact alFind_alErase_self _ _
  · exact alFind_alErase_self _ _

/-- C1: an entry written with `ttl = 0` (or an already-past expiry, e.g. a
negative ttl) is never returned by a subsequent `get`, an entry written with
a future expiry is returned until exactly that expiry time passes (the hit
condition is strictly `now < expires_at`, for both `get_cached_dna` and
`get_cached_platform_content`), and a `get` that finds an expired entry
evicts it — deleting the memory entry and/or unlinking the file — and
reports a miss. -/
theorem cache_ttl_correct (now w ttl : Int) (key dkey pf : String)
    (dna : ContentDNA) (c : PlatformContent μ) (st : CMState μ) :
    ((CacheManager.get_cached_dna now key
        (CacheManager.cache_content_dna w key dna ttl st).2).1
      = if now < w + ttl * 3600 then some dna else none) ∧
    (w + ttl * 3600 ≤ now →
      alFind ("dna_" ++ key)
        ((CacheManager.get_cached_dna now key
          (CacheManager.cache_content_dna w key dna ttl st).2).2).memory = none ∧
      alFind key
        ((CacheManager.get_cached_dna now key
          (CacheManager.cache_content_dna w key dna ttl st).2).2).dnaFiles = none) ∧
    ((CacheManager.get_cached_platform_content now dkey pf
        (CacheManager.cache_platform_content w dkey pf c ttl st).2).1
      = if now < w + ttl * 3600 then some { c with scheduled_time := none } else none) ∧
    (w + ttl * 3600 ≤ now →
      alFind (pf ++ "_" ++ dkey)
        ((CacheManager.get_cached_platform_content now dkey pf
          (CacheManager.cache_platform_content w dkey pf c ttl st).2).2).contentFiles = none) ∧
    (∀ (st₁ : CMState μ) (rec : DnaRecord),
      alFind ("dna_" ++ key) st₁.memory = none →
      alFind key st₁.dnaFiles = some (DnaFile.ok rec) →
      rec.expires_at ≤ now →
      (CacheManager.get_cached_dna now key st₁).1 = none ∧
      alFind key ((CacheManager.get_cached_dna now key st₁).2).dnaFiles = none) ∧
    (∀ (st₁ : CMState μ) (e : CacheEntry) (x : Int),
      alFind ("dna_" ++ key) st₁.memory = some e →
      e.expires_at = some x → x ≤ now →
      alFind key st₁.dnaFiles = none →
      (CacheManager.get_cached_dna now key st₁).1 = none ∧
      alFind ("dna_" ++ key) ((CacheManager.get_cached_dna now key st₁).2).memory = none) := by
  refine ⟨cache_dna_roundtrip now w ttl key dna st,
    fun h => cache_dna_expired_evicts now w ttl key dna st h,
    cache_platform_roundtrip now w ttl dkey pf c st,
    fun h => cache_platform_expired_evicts now w ttl dkey pf c st h,
    ?_, ?_⟩
  · intro st₁ rec hmem hfile hexp
    have hlt : ¬ now < rec.expires_at := by omega
    simp only [CacheManager.get_cached_dna, hmem, CacheManager.get_cached_dna_file,
      hfile, if_neg hlt]
    exact ⟨trivial, alFind_alErase_self _ _⟩
  · intro st₁ e x hmem hexp hx hfile
    have hlt : ¬ now < x := by omega
    simp only [CacheManager.get_cached_dna, hmem, hexp, if_neg hlt,
      CacheManager.get_cached_dna_file]
    simp only [hfile]
    exact ⟨trivial, alFind_alErase_self _ _⟩

/-- Concrete values used by the witnesses below. -/
def dnaW : ContentDNA :=
  { value_proposition := "v", technical_details := [], problem_solved := "p",
    target_audience := "a", key_metrics := [], unique_aspects := [],
    limitations := [], content_type := "tool_launch" }

/-- Empty cache-manager state over trivial metadata, for witnesses. -/
def stW : CMState Unit := ⟨[], [], [], []⟩

/-- Concrete platform content for witnesses. -/
def cW : PlatformContent Unit :=
  { platform := "twitter", title := "t", body := "b", metadata := (),
    validation := some ⟨true, [], [], []⟩ }

/-- A state with one expired DNA file and a memory miss, for witnesses. -/
def stExp : CMState Unit := ⟨[], [("k", DnaFile.ok ⟨dnaW, 0, 3600⟩)], [], []⟩

/-- A state with one expired memory entry and no DNA file, for witnesses. -/
def stMemExp : CMState Unit :=
  ⟨[("dna_k", { key := "k", data := dnaW, created_at := 0, expires_at := some 3600 })],
    [], [], []⟩

/-- Witness for C1: ttl 1 hour written at time 0, queried at 9999 (expired)
and at 10 (live); each hypothesis of `cache_ttl_correct` discharged at a
concrete input. -/
theorem cache_ttl_correct_witness :
    (alFind ("dna_" ++ "k")
        ((CacheManager.get_cached_dna 9999 "k"
          (CacheManager.cache_content_dna 0 "k" dnaW 1 stW).2).2).memory = none ∧
      alFind "k"
        ((CacheManager.get_cached_dna 9999 "k"
          (CacheManager.cache_content_dna 0 "k" dnaW 1 stW).2).2).dnaFiles = none) ∧
    alFind ("twitter" ++ "_" ++ "d")
      ((CacheManager.get_cached_platform_content 9999 "d" "twitter"
        (CacheManager.cache_platform_content 0 "d" "twitter" cW 1 stW).2).2).contentFiles
      = none ∧
    ((CacheManager.get_cached_dna 9999 "k" stExp).1 = none ∧
      alFind "k" ((CacheManager.get_cached_dna 9999 "k" stExp).2).dnaFiles = none) ∧
    ((CacheManager.get_cached_dna 9999 "k" stMemExp).1 = none ∧
      alFind ("dna_" ++ "k")
        ((CacheManager.get_cached_dna 9999 "k" stMemExp).2).memory = none) := by
  have h := cache_ttl_correct (μ := Unit) 9999 0 1 "k" "d" "twitter" dnaW cW stW
  exact ⟨h.2.1 (by decide), h.2.2.2.1 (by decide),
    h.2.2.2.2.1 stExp ⟨dnaW, 0, 3600⟩ (by decide) (by decide) (by decide),
    h.2.2.2.2.2 stMemExp
      { key := "k", data := dnaW, created_at := 0, expires_at := some 3600 }
      3600 (by decide) (by decide) (by decide) (by decide)⟩

/-- C8: a persisted cache entry whose stored file is corrupted (unparseable
or structurally invalid — the `except` branches in `get_cached_dna` and
`get_cached_platform_content`) is treated as a cache miss: the corrupted file
is unlinked and the call returns `None`. No error is propagated: the model of
each getter is a total function into `Option`, mirroring that the `except`
clause swallows every exception from the read path. -/
theorem cache_corruption_is_miss (now : Int) (key dkey pf : String) (st : CMState μ) :
    (alFind ("dna_" ++ key) st.memory = none →
      alFind key st.dnaFiles = some DnaFile.corrupt →
      (CacheManager.get_cached_dna now key st).1 = none ∧
      alFind key ((CacheManager.get_cached_dna now key st).2).dnaFiles = none) ∧
    (∀ (e : CacheEntry) (x : Int),
      alFind ("dna_" ++ key) st.memory = some e →
      e.expires_at = some x → x ≤ now →
      alFind key st.dnaFiles = some DnaFile.corrupt →
      (CacheManager.get_cached_dna now key st).1 = none ∧
      alFind key ((CacheManager.get_cached_dna now key st).2).dnaFiles = none) ∧
    (alFind (pf ++ "_" ++ dkey) st.contentFiles = some ContentFile.corrupt →
      (CacheManager.get_cached_platform_content now dkey pf st).1 = none ∧
      alFind (pf ++ "_" ++ dkey)
        ((CacheManager.get_cached_platform_content now dkey pf st).2).contentFiles = none) := by
  refine ⟨?_, ?_, ?_⟩
  · intro hmem hfile
    simp only [CacheManager.get_cached_dna, hmem, CacheManager.get_cached_dna_file, hfile]
    exact ⟨trivial, alFind_alErase_self _ _⟩
  · intro e x hmem hexp hx hfile
    have hlt : ¬ now < x := by omega
    simp only [CacheManager.get_cached_dna, hmem, hexp, if_neg hlt,
      CacheManager.get_cached_dna_file]
    simp only [hfile]
    exact ⟨trivial, alFind_alErase_self _ _⟩
  · intro hfile
    simp only [CacheManager.get_cached_platform_content, hfile]
    exact ⟨trivial, alFind_alErase_self _ _⟩

/-- A state with corrupted DNA and content files, for the C8 witness. -/
def stCorrupt : CMState Unit :=
  ⟨[], [("k", DnaFile.corrupt)], [("twitter_d", ContentFile.corrupt)], []⟩

/-- Witness for C8: every hypothesis of `cache_corruption_is_miss`
discharged on a concrete corrupted state. -/
theorem cache_corruption_is_miss_witness :
    ((CacheManager.get_cached_dna 5 "k" stCorrupt).1 = none ∧
      alFind "k" ((CacheManager.get_cached_dna 5 "k" stCorrupt).2).dnaFiles = none) ∧
    ((CacheManager.get_cached_platform_content 5 "d" "twitter" stCorrupt).1 = none ∧
      alFind ("twitter" ++ "_" ++ "d")
        ((CacheManager.get_cached_platform_content 5 "d" "twitter" stCorrupt).2).contentFiles
        = none) := by
  have h := cache_corruption_is_miss (μ := Unit) 5 "k" "d" "twitter" stCorrupt
  exact ⟨h.1 (by decide) (by decide), h.2.2 (by decide)⟩

/-! ## Failure recovery manager (cache_manager.py lines 218-359) -/

/-- Zero-pad a natural number to `w` digits, as `strftime` does. -/
def padNum (w : Nat) (n : Nat) : String :=
  let s := toString n
  String.mk (List.replicate (w - s.length) (Char.ofNat 48)) ++ s

/-- Civil date (year, month, day) from a count of days since 1970-01-01
(standard era-based conversion of the proleptic Gregorian calendar). -/
def civil_from_days (z₀ : Nat) : Nat × Nat × Nat :=
  let z := z₀ + 719468
  let era := z / 146097
  let doe := z % 146097
  let yoe := (doe - doe / 1460 + doe / 36524 - doe / 146096) / 365
  let y := yoe + era * 400
  let doy := doe - (365 * yoe + yoe / 4 - yoe / 100)
  let mp := (5 * doy + 2) / 153
  let d := doy - (153 * mp + 2) / 5 + 1
  let m := if mp < 10 then mp + 3 else mp - 9
  (if m ≤ 2 then y + 1 else y, m, d)

/-- `datetime.strftime('%Y%m%d_%H%M%S')` on an epoch second: the creation
time rendered at second resolution. -/
def strftime_compact (t : Int) : String :=
  let n := t.toNat
  let days := n / 86400
  let secs := n % 86400
  let ymd := civil_from_days days
  padNum 4 ymd.1 ++ padNum 2 ymd.2.1 ++ padNum 2 ymd.2.2 ++ "_" ++
    padNum 2 (secs / 3600) ++ padNum 2 (secs % 3600 / 60) ++ padNum 2 (secs % 60)

namespace CacheManager

/-- `save_failed_post` (lines 218-256): build a `FailedPost` with
`attempt_count = 1` and `next_retry = now + backoff(1)`, then write it under
`failed_id = platform ++ "_" ++ now.strftime('%Y%m%d_%H%M%S')` (the content
is stored without its validation); returns the id. -/
def save_failed_post (now : Int) (platform : String) (content : PlatformContent μ)
    (error : String) (st : CMState μ) : String × CMState μ :=
  let failed_id := platform ++ "_" ++ strftime_compact now
  let data : FailedData μ :=
    { platform := platform, c_platform := content.platform, c_title := content.title,
      c_body := content.body, c_metadata := content.metadata, error := error,
      attempt_count := 1, created_at := now, last_attempt := now,
      next_retry := calculate_next_retry now 1, max_retries := some 3 }
  (failed_id, { st with failedFiles := alInsert failed_id (FailedFile.ok data) st.failedFiles })

/-- How `_load_failed_posts` (lines 258-297) reconstructs one record: the
stored content comes back with a fresh all-clear validation, and
`max_retries` defaults to 3 when absent. -/
def load_one (d : FailedData μ) : FailedPost μ :=
  { platform := d.platform,
    content := { platform := d.c_platform, title := d.c_title, body := d.c_body,
                 metadata := d.c_metadata, validation := some ⟨true, [], [], []⟩,
                 scheduled_time := none },
    error := d.error, attempt_count := d.attempt_count, created_at := d.created_at,
    last_attempt := d.last_attempt, next_retry := d.next_retry,
    max_retries := d.max_retries.getD 3 }

/-- `_load_failed_posts` (lines 258-297): parse every file in the directory;
a file whose read raises is skipped and unlinked (`except` branch). -/
def load_failed_posts (st : CMState μ) : List (FailedPost μ) × CMState μ :=
  (st.failedFiles.filterMap (fun e =>
      match e.2 with
      | FailedFile.ok d => some (load_one d)
      | FailedFile.corrupt => none),
    { st with failedFiles := st.failedFiles.filter (fun e =>
      match e.2 with
      | FailedFile.ok _ => true
      | FailedFile.corrupt => false) })

/-- `get_retry_ready_posts` (lines 299-310): reload the records and keep
those with `attempt_count < max_retries and now >= next_retry`. -/
def get_retry_ready_posts (now : Int) (st : CMState μ) :
    List (FailedPost μ) × CMState μ :=
  let loaded := load_failed_posts st
  (loaded.1.filter (fun p =>
      decide (p.attempt_count < p.max_retries) && decide (p.next_retry ≤ now)),
    loaded.2)

/-- `update_failed_post_attempt` (lines 312-339): missing file returns
`False`; an unreadable file hits the `except` branch and returns `False`
without modification; otherwise increment `attempt_count`, stamp
`last_attempt`, replace the error only when `new_error` is truthy (a `None`
or empty string keeps the old error), and recompute `next_retry` from the new
attempt count. -/
def update_failed_post_attempt (now : Int) (failed_id : String)
    (new_error : Option String) (st : CMState μ) : Bool × CMState μ :=
  match alFind failed_id st.failedFiles with
  | none => (false, st)
  | some FailedFile.corrupt => (false, st)
  | some (FailedFile.ok d) =>
    let ac := d.attempt_count + 1
    let d₁ : FailedData μ :=
      { d with attempt_count := ac, last_attempt := now,
               error := (match new_error with
                         | some e => if e = "" then d.error else e
                         | none => d.error),
               next_retry := calculate_next_retry now ac }
    (true, { st with failedFiles := alInsert failed_id (FailedFile.ok d₁) st.failedFiles })

/-- `remove_failed_post` (lines 341-350): unlink if present. -/
def remove_failed_post (failed_id : String) (st : CMState μ) : Bool × CMState μ :=
  match alFind failed_id st.failedFiles with
  | some _ => (true, { st with failedFiles := alErase failed_id st.failedFiles })
  | none => (false, st)

end CacheManager

/-- Every post returned by `get_retry_ready_posts` satisfies the filter
predicate (helper). -/
theorem mem_retry_ready (now : Int) (st : CMState μ) (p : FailedPost μ) :
    p ∈ (CacheManager.get_retry_ready_posts now st).1 ↔
      p ∈ (CacheManager.load_failed_posts st).1 ∧
        p.attempt_count < p.max_retries ∧ p.next_retry ≤ now := by
  simp [CacheManager.get_retry_ready_posts, List.mem_filter, and_assoc]

/-- C3: for every stored set of failure records and query time `now`,
`get_retry_ready_posts` returns exactly the loadable records satisfying
`attempt_count < max_retries` and `now >= next_retry`; a record with
`next_retry == now` is included, one with `next_retry == now + 1` (one second
later) is excluded, and all parseable records — in particular those with
`attempt_count >= max_retries` — are retained in storage. -/
theorem retry_ready_exact (now : Int) (st : CMState μ) :
    (∀ p : FailedPost μ,
      p ∈ (CacheManager.get_retry_ready_posts now st).1 ↔
        p ∈ (CacheManager.load_failed_posts st).1 ∧
          p.attempt_count < p.max_retries ∧ p.next_retry ≤ now) ∧
    (∀ (id : String) (d : FailedData μ),
      (id, FailedFile.ok d) ∈ st.failedFiles →
      (id, FailedFile.ok d) ∈ ((CacheManager.get_retry_ready_posts now st).2).failedFiles) ∧
    (∀ p : FailedPost μ,
      p ∈ (CacheManager.load_failed_posts st).1 → p.next_retry = now →
      p.attempt_count < p.max_retries →
      p ∈ (CacheManager.get_retry_ready_posts now st).1) ∧
    (∀ p : FailedPost μ,
      p.next_retry = now + 1 → p ∉ (CacheManager.get_retry_ready_posts now st).1) := by
  refine ⟨fun p => mem_retry_ready now st p, ?_, ?_, ?_⟩
  · intro id d hm
    simp only [CacheManager.get_retry_ready_posts, CacheManager.load_failed_posts]
    exact List.mem_filter.2 ⟨hm, rfl⟩
  · intro p hl he hc
    exact (mem_retry_ready now st p).2 ⟨hl, hc, by omega⟩
  · intro p he hm
    have h := ((mem_retry_ready now st p).1 hm).2.2
    omega

/-- A failure record ready exactly at `now = 100`, for the C3 witness. -/
def fdReady : FailedData Unit :=
  { platform := "twitter", c_platform := "twitter", c_title := "t", c_body := "b",
    c_metadata := (), error := "boom", attempt_count := 1, created_at := 0,
    last_attempt := 0, next_retry := 100, max_retries := some 3 }

/-- A record one second past `now = 100`, for the C3 witness. -/
def fdLate : FailedData Unit := { fdReady with next_retry := 101 }

/-- An exhausted record (`attempt_count = max_retries`), for the C3 witness. -/
def fdDone : FailedData Unit := { fdReady with attempt_count := 3, next_retry := 0 }

/-- Store holding the three records plus a corrupted file, for the C3 witness. -/
def stR : CMState Unit :=
  ⟨[], [], [], [("a", FailedFile.ok fdReady), ("b", FailedFile.ok fdLate),
    ("c", FailedFile.ok fdDone), ("x", FailedFile.corrupt)]⟩

/-- Witness for C3: at `now = 100` the boundary record is returned, the
`now + 1` record is not, the exhausted record stays in storage but is not
returned. -/
theorem retry_ready_exact_witness :
    CacheManager.load_one fdReady ∈ (CacheManager.get_retry_ready_posts 100 stR).1 ∧
    CacheManager.load_one fdLate ∉ (CacheManager.get_retry_ready_posts 100 stR).1 ∧
    ("c", FailedFile.ok fdDone) ∈ ((CacheManager.get_retry_ready_posts 100 stR).2).failedFiles ∧
    CacheManager.load_one fdDone ∉ (CacheManager.get_retry_ready_posts 100 stR).1 := by
  have h := retry_ready_exact (μ := Unit) 100 stR
  refine ⟨h.2.2.1 (CacheManager.load_one fdReady) (by decide) (by decide) (by decide),
    h.2.2.2 (CacheManager.load_one fdLate) (by decide),
    h.2.1 "c" fdDone (by decide), ?_⟩
  intro hmem
  have hc := (h.1 (CacheManager.load_one fdDone)).1 hmem
  revert hc
  decide

/-! ## Retry exhaustion (C6) -/

/-- The failure id produced by the concrete C6 scenario. -/
def id6 : String := (CacheManager.save_failed_post 0 "twitter" cW "boom" stW).1

/-- State after `save_failed_post` in the C6 scenario. -/
def st6a : CMState Unit := (CacheManager.save_failed_post 0 "twitter" cW "boom" stW).2

/-- State after the first `update_failed_post_attempt`. -/
def st6b : CMState Unit :=
  (CacheManager.update_failed_post_attempt 60 id6 (some "e1") st6a).2

/-- State after the second `update_failed_post_attempt`. -/
def st6c : CMState Unit :=
  (CacheManager.update_failed_post_attempt 360 id6 (some "e2") st6b).2

/-- State after the third `update_failed_post_attempt`. -/
def st6d : CMState Unit :=
  (CacheManager.update_failed_post_attempt 2160 id6 (some "e3") st6c).2

/-- Counterexample to C6 as stated: a record created by `save_failed_post`
(`attempt_count = 1`, `max_retries = 3`) to which `update_failed_post_attempt`
is applied three times ends with `attempt_count = 4`, not 3 — each
application increments the counter unconditionally. -/
theorem retry_exhaustion_cex :
    (match alFind id6 st6d.failedFiles with
     | some (FailedFile.ok d) => d.attempt_count
     | _ => 0) = 4 ∧
    ¬ (match alFind id6 st6d.failedFiles with
       | some (FailedFile.ok d) => d.attempt_count
       | _ => 0) = 3 := by
  exact ⟨by decide, by decide⟩

/-- C6 (amended): a record created by `record_failure` starts at
`attempt_count = 1`; applying `record_retry_attempt` twice leaves
`attempt_count = 3 = max_retries`, after which `get_retry_ready_posts`
excludes the record even when `next_retry` has passed; a third application
(which the retry sweep would never issue) leaves `attempt_count = 4`, still
excluded. -/
theorem retry_exhaustion_amended (t₀ t₁ t₂ t₃ : Int) (p e e₁ e₂ e₃ : String)
    (c : PlatformContent μ) (st : CMState μ) :
    ∀ id st₁, CacheManager.save_failed_post t₀ p c e st = (id, st₁) →
    ∀ b₂ st₂, CacheManager.update_failed_post_attempt t₁ id (some e₁) st₁ = (b₂, st₂) →
    ∀ b₃ st₃, CacheManager.update_failed_post_attempt t₂ id (some e₂) st₂ = (b₃, st₃) →
    ∀ b₄ st₄, CacheManager.update_failed_post_attempt t₃ id (some e₃) st₃ = (b₄, st₄) →
      b₂ = true ∧ b₃ = true ∧ b₄ = true ∧
      (∃ d : FailedData μ, alFind id st₁.failedFiles = some (FailedFile.ok d) ∧
        d.attempt_count = 1) ∧
      (∃ d : FailedData μ, alFind id st₃.failedFiles = some (FailedFile.ok d) ∧
        d.attempt_count = 3 ∧ d.max_retries = some 3 ∧
        ∀ now : Int, CacheManager.load_one d ∉
          (CacheManager.get_retry_ready_posts now st₃).1) ∧
      (∃ d : FailedData μ, alFind id st₄.failedFiles = some (FailedFile.ok d) ∧
        d.attempt_count = 4 ∧
        ∀ now : Int, CacheManager.load_one d ∉
          (CacheManager.get_retry_ready_posts now st₄).1) := by
  intro id st₁ h₀ b₂ st₂ h₂ b₃ st₃ h₃ b₄ st₄ h₄
  simp only [CacheManager.save_failed_post] at h₀
  injection h₀ with hid hst
  subst hid
  subst hst
  simp only [CacheManager.update_failed_post_attempt, alFind_alInsert_self] at h₂
  injection h₂ with hb₂ hst₂
  subst hst₂
  simp only [CacheManager.update_failed_post_attempt, alFind_alInsert_self] at h₃
  injection h₃ with hb₃ hst₃
  subst hst₃
  simp only [CacheManager.update_failed_post_attempt, alFind_alInsert_self] at h₄
  injection h₄ with hb₄ hst₄
  subst hst₄
  refine ⟨hb₂.symm, hb₃.symm, hb₄.symm,
    ⟨_, alFind_alInsert_self _ _ _, rfl⟩,
    ⟨_, alFind_alInsert_self _ _ _, rfl, rfl, ?_⟩,
    ⟨_, alFind_alInsert_self _ _ _, rfl, ?_⟩⟩
  · intro now hmem
    have h := ((mem_retry_ready now _ _).1 hmem).2.1
    simp [CacheManager.load_one] at h
  · intro now hmem
    have h := ((mem_retry_ready now _ _).1 hmem).2.1
    simp [CacheManager.load_one] at h

/-- Witness for C6 (amended): the concrete scenario of the counterexample,
each hypothesis of `retry_exhaustion_amended` discharged by computation. -/
theorem retry_exhaustion_amended_witness :
    (∃ d : FailedData Unit, alFind id6 st6c.failedFiles = some (FailedFile.ok d) ∧
      d.attempt_count = 3 ∧ d.max_retries = some 3 ∧
      ∀ now : Int, CacheManager.load_one d ∉
        (CacheManager.get_retry_ready_posts now st6c).1) ∧
    (∃ d : FailedData Unit, alFind id6 st6d.failedFiles = some (FailedFile.ok d) ∧
      d.attempt_count = 4 ∧
      ∀ now : Int, CacheManager.load_one d ∉
        (CacheManager.get_retry_ready_posts now st6d).1) := by
  have h := retry_exhaustion_amended 0 60 360 2160 "twitter" "boom" "e1" "e2" "e3"
    cW stW id6 st6a rfl true st6b rfl true st6c rfl true st6d rfl
  exact ⟨h.2.2.2.2.1, h.2.2.2.2.2⟩

/-! ## Failure id collisions (C10) -/

/-- C10: `save_failed_post` derives the failure id as the platform name,
an underscore, and the creation time formatted at second resolution
(`'%Y%m%d_%H%M%S'`, anchored below at the epoch); two failures recorded for
the same platform at the same second therefore get equal ids regardless of
their content and error, and the second write overwrites the first — the
resulting store is exactly the one obtained as if only the second failure
had been recorded, so the earlier record is lost. -/
theorem failed_id_collision (t : Int) (p : String) (c₁ c₂ : PlatformContent μ)
    (e₁ e₂ : String) (st : CMState μ) :
    ((CacheManager.save_failed_post t p c₁ e₁ st).1 = p ++ "_" ++ strftime_compact t) ∧
    ((CacheManager.save_failed_post t p c₁ e₁ st).1
      = (CacheManager.save_failed_post t p c₂ e₂ st).1) ∧
    ((CacheManager.save_failed_post t p c₂ e₂
        (CacheManager.save_failed_post t p c₁ e₁ st).2).2
      = (CacheManager.save_failed_post t p c₂ e₂ st).2) ∧
    strftime_compact 0 = "19700101_000000" := by
  refine ⟨rfl, rfl, ?_, by decide⟩
  simp only [CacheManager.save_failed_post]
  congr 1
  exact alInsert_alInsert_self _ _ _ _

/-! ## Validators (src/platforms/hackernews/validator.py, twitter/adapter.py) -/

/-- Does `l` start with `pat`? -/
def listStartsWith (pat l : List Char) : Bool :=
  decide (l.take pat.length = pat)

/-- Does `pat` occur as a contiguous run anywhere in `l`? -/
def listHasSub (pat : List Char) : List Char → Bool
  | [] => pat.isEmpty
  | c :: t => listStartsWith pat (c :: t) || listHasSub pat t

/-- Python `needle in hay` on strings: substring containment. -/
def pyIn (needle hay : String) : Bool :=
  listHasSub needle.toList hay.toList

/-- Python `str.lower()` (ASCII case folding suffices for the rule sets). -/
def pyLower (s : String) : String :=
  s.map Char.toLower

/-- Python `str.split()` with no arguments: split on whitespace runs,
dropping empty fields. -/
def pySplitWs (s : String) : List String :=
  (s.split Char.isWhitespace).filter (fun w => !(w = "" : Bool))

/-- The emoji ranges of the HN validator regex
`[\U0001F600-\U0001F64F\U0001F300-\U0001F5FF\U0001F680-\U0001F6FF\U0001F1E0-\U0001F1FF]`. -/
def isEmojiHN (c : Char) : Bool :=
  (0x1F600 ≤ c.toNat && c.toNat ≤ 0x1F64F) ||
  (0x1F300 ≤ c.toNat && c.toNat ≤ 0x1F5FF) ||
  (0x1F680 ≤ c.toNat && c.toNat ≤ 0x1F6FF) ||
  (0x1F1E0 ≤ c.toNat && c.toNat ≤ 0x1F1FF)

/-- `profile['content_rules']['title']` of the HN profile: the two fields the
validator reads, each with a `.get` default. -/
structure HNTitleRules where
  max_length : Option Nat := none
  forbidden_words : Option (List String) := none
deriving DecidableEq, Repr

/-- `profile['content_rules']` of the HN profile. -/
structure HNContentRules where
  title : Option HNTitleRules := none
deriving DecidableEq, Repr

/-- The HN profile dict as read by the validator. -/
structure HNProfile where
  content_rules : Option HNContentRules := none
deriving DecidableEq, Repr

/-- `HackerNewsValidator._validate_title` (validator.py lines 39-86):
returns (errors, warnings, suggestions) in the order the Python code appends
them. -/
def hn_validate_title (profile : HNProfile) (title : String) :
    List String × List String × List String :=
  let rules := (profile.content_rules.getD {}).title.getD {}
  let max_length := rules.max_length.getD 60
  let errors₁ := if title.length > max_length then
      ["Title too long: " ++ toString title.length ++ "/" ++ toString max_length ++ " chars"]
    else []
  let forbidden := rules.forbidden_words.getD []
  let errors₂ := (forbidden.filter (fun w => pyIn (pyLower w) (pyLower title))).map
      (fun w => "Contains forbidden marketing word: \x27" ++ w ++ "\x27")
  let errors₃ := if title.startsWith "Show HN:" then []
    else ["Title should start with \x27Show HN:\x27 for tool submissions"]
  let warnings₁ := if title.contains '!' then ["Exclamation marks discouraged on HN"] else []
  let warnings₂ := if title.contains '?' && !(title.trim.endsWith "?") then
      ["Question marks should only be at end for Ask HN"]
    else []
  let errors₄ := if title.toList.any isEmojiHN then ["Emoji not allowed in HN titles"] else []
  let warnings₃ := if (pySplitWs title).length < 4 then
      ["Title may be too generic - add more technical detail"]
    else []
  let suggestions₁ := if pyIn "Show HN:" title && !(pyIn " - " title) then
      ["Consider format: \x27Show HN: [Tool] - [What it does]\x27"]
    else []
  (errors₁ ++ errors₂ ++ errors₃ ++ errors₄, warnings₁ ++ warnings₂ ++ warnings₃, suggestions₁)

/-- The marketing phrases checked by `_validate_body`. -/
def marketing_phrases : List String :=
  ["call to action", "sign up now", "get started today",
   "don\x27t miss out", "limited time", "special offer"]

/-- The technical-depth indicators of `_validate_body`. -/
def technical_indicators : List String :=
  ["algorithm", "implementation", "architecture", "benchmark",
   "performance", "optimization", "code", "technical"]

/-- The honesty indicators of `_validate_body`. -/
def honesty_indicators : List String :=
  ["limitation", "challenge", "issue", "problem", "not yet",
   "working on", "beta", "experimental"]

/-- `HackerNewsValidator._validate_body` (lines 88-135): returns
(warnings, suggestions); it produces no errors. -/
def hn_validate_body (body : String) : List String × List String :=
  let body_lower := pyLower body
  let warnings₁ := (marketing_phrases.filter (fun ph => pyIn ph body_lower)).map
      (fun ph => "Marketing language detected: \x27" ++ ph ++ "\x27")
  let technical_score := (technical_indicators.filter (fun i => pyIn i body_lower)).length
  let suggestions₁ := if technical_score < 2 then
      ["Add more technical details - HN users appreciate depth"]
    else []
  let honesty_score := (honesty_indicators.filter (fun i => pyIn i body_lower)).length
  let suggestions₂ := if honesty_score = 0 then
      ["Consider mentioning limitations or challenges for authenticity"]
    else []
  let warnings₂ := if body.length < 100 then
      ["Body might be too short - HN users appreciate detailed explanations"]
    else []
  let warnings₃ := if body.length > 2000 then
      ["Body might be too long - consider keeping it concise"]
    else []
  (warnings₁ ++ warnings₂ ++ warnings₃, suggestions₁ ++ suggestions₂)

/-- `HackerNewsValidator.validate` (lines 13-37): merge the title findings
(errors, warnings, suggestions) with the body findings (warnings,
suggestions) and set `is_valid = len(errors) == 0`. -/
def hn_validate (profile : HNProfile) (content : PlatformContent μ) : ValidationResult :=
  let t := hn_validate_title profile content.title
  let b := hn_validate_body content.body
  let errors := t.1
  let warnings := t.2.1 ++ b.1
  let suggestions := t.2.2 ++ b.2
  { is_valid := errors.length == 0, errors := errors, warnings := warnings,
    suggestions := suggestions }

/-- One entry of the `thread` list in Twitter content metadata, with the
fields `TwitterAdapter.validate_content` reads through `.get`. -/
structure Tweet where
  tweet_number : Option Nat := none
  content : Option String := none
  type : Option String := none
  visual_suggestion : Option String := none
deriving DecidableEq, Repr

/-- The metadata shape `TwitterAdapter.validate_content` reads. -/
structure TwitterMeta where
  thread : Option (List Tweet) := none
  hashtags : Option (List String) := none
deriving DecidableEq, Repr

/-- `tweet.get('tweet_number', '?')` as rendered into the finding messages. -/
def tweet_num_str (t : Tweet) : String :=
  match t.tweet_number with
  | some n => toString n
  | none => "?"

/-- `TwitterAdapter.validate_content` (adapter.py lines 103-152): an empty
thread returns early with a single error and `is_valid=False`; otherwise each
tweet contributes a length error over 280 chars and a length warning over
260, plus a punctuation suggestion; then hook/cta/hashtag warnings; finally
`is_valid = len(errors) == 0`. -/
def twitter_validate_content (content : PlatformContent TwitterMeta) : ValidationResult :=
  let thread := content.metadata.thread.getD []
  if thread.isEmpty then
    { is_valid := false, errors := ["No thread content generated"],
      warnings := [], suggestions := [] }
  else
    let errors := thread.flatMap (fun t =>
      let tc := t.content.getD ""
      if tc.length > 280 then
        ["Tweet " ++ tweet_num_str t ++ " exceeds 280 characters (" ++
          toString tc.length ++ ")"]
      else [])
    let warnings₁ := thread.flatMap (fun t =>
      let tc := t.content.getD ""
      if tc.length > 260 then
        ["Tweet " ++ tweet_num_str t ++ " is very long (" ++ toString tc.length ++ "/280)"]
      else [])
    let suggestions := thread.flatMap (fun t =>
      let tc := t.content.getD ""
      if !(tc.contains '?' || tc.contains '!' || tc.contains ':') then
        ["Tweet " ++ tweet_num_str t ++ " could use more engaging punctuation"]
      else [])
    let warnings₂ := if (thread.filter (fun t => t.type == some "hook")).isEmpty then
        ["No hook tweet found - first tweet should grab attention"]
      else []
    let warnings₃ := if (thread.filter (fun t => t.type == some "cta")).isEmpty then
        ["No call-to-action tweet found - consider adding engagement driver"]
      else []
    let hashtags := content.metadata.hashtags.getD []
    let warnings₄ := if hashtags.length > 3 then
        ["Too many hashtags (" ++ toString hashtags.length ++
          ") - Twitter recommends max 3 per thread"]
      else []
    { is_valid := errors.length == 0, errors := errors,
      warnings := warnings₁ ++ warnings₂ ++ warnings₃ ++ warnings₄,
      suggestions := suggestions }

/-- For a `Bool`-valued `len(errors) == 0` check, truth is emptiness. -/
theorem length_beq_zero (l : List α) : ((l.length == 0) = true) ↔ l = [] := by
  cases l <;> simp

/-- C4: for every artifact, the `ValidationResult` produced by the HN
validator and by the Twitter validator satisfies
`is_valid == (len(errors) == 0)` — warnings and suggestions never affect
validity (including the early-return branch of the Twitter validator, whose
explicit `is_valid=False` coincides with its non-empty error list) — and
re-running the same (pure) validator on the same artifact yields an
identical result. -/
theorem validation_totality (profile : HNProfile) (c₁ : PlatformContent μ)
    (c₂ : PlatformContent TwitterMeta) :
    ((hn_validate profile c₁).is_valid = true ↔ (hn_validate profile c₁).errors = []) ∧
    ((twitter_validate_content c₂).is_valid = true ↔
      (twitter_validate_content c₂).errors = []) ∧
    hn_validate profile c₁ = hn_validate profile c₁ ∧
    twitter_validate_content c₂ = twitter_validate_content c₂ := by
  refine ⟨?_, ?_, rfl, rfl⟩
  · exact length_beq_zero _
  · dsimp only [twitter_validate_content]
    split
    · simp
    · exact length_beq_zero _

/-! ## Platform recommender (src/core/platform_recommender.py) -/

/-- One value of `PlatformRecommender.PLATFORM_PROFILES` (lines 18-103). -/
structure PlatformProfile where
  audience : String
  sweet_spot : List String
  content_types_avoid : List String
  needs : String
  red_flags : String
deriving DecidableEq, Repr

/-- `PlatformRecommender.PLATFORM_PROFILES`: the platform-profile catalog, in
source (insertion) order. -/
def PLATFORM_PROFILES : List (String × PlatformProfile) :=
  [("hackernews",
    { audience := "engineers, founders, intellectually curious hackers",
      sweet_spot := ["tool_launch", "case_study", "opinion"],
      content_types_avoid := ["tutorial"],
      needs := "technical depth, novelty, honest trade-offs",
      red_flags := "marketing speak, no technical substance, beginner content" }),
   ("twitter",
    { audience := "tech twitter, founders, developers",
      sweet_spot := ["tool_launch", "opinion", "announcement"],
      content_types_avoid := [],
      needs := "punchy hooks, visual content, thread-worthy insights",
      red_flags := "dry content, no hook, nothing quotable" }),
   ("reddit",
    { audience := "varies wildly by subreddit",
      sweet_spot := ["tool_launch", "tutorial", "case_study"],
      content_types_avoid := [],
      needs := "genuine value, subreddit-specific framing, not self-promo",
      red_flags := "obvious marketing, wrong subreddit, no community fit" }),
   ("medium",
    { audience := "general tech readers, professionals",
      sweet_spot := ["tutorial", "case_study", "opinion"],
      content_types_avoid := ["announcement"],
      needs := "personal narrative, lessons learned, 1500+ words",
      red_flags := "too short, no personal angle, pure announcement" }),
   ("devto",
    { audience := "developers, beginners welcome",
      sweet_spot := ["tutorial", "tool_launch", "case_study"],
      content_types_avoid := [],
      needs := "code examples, beginner-friendly, practical",
      red_flags := "no code, too theoretical, gatekeeping tone" }),
   ("linkedin",
    { audience := "professionals, b2b, career-focused",
      sweet_spot := ["announcement", "case_study", "opinion"],
      content_types_avoid := ["tutorial"],
      needs := "professional angle, lessons, achievement framing",
      red_flags := "too technical, no professional relevance" }),
   ("producthunt",
    { audience := "early adopters, product people, makers",
      sweet_spot := ["tool_launch"],
      content_types_avoid := ["tutorial", "opinion", "case_study"],
      needs := "launchable product, visuals, clear value prop",
      red_flags := "not a product, no demo, just an article" }),
   ("indiehackers",
    { audience := "indie founders, bootstrappers, solopreneurs",
      sweet_spot := ["tool_launch", "case_study"],
      content_types_avoid := [],
      needs := "founder story, metrics transparency, lessons",
      red_flags := "no founder angle, VC-speak, no indie relevance" }),
   ("substack",
    { audience := "newsletter readers, thought leadership seekers",
      sweet_spot := ["opinion", "case_study"],
      content_types_avoid := ["announcement"],
      needs := "distinctive voice, deep insights, email-worthy",
      red_flags := "shallow, no unique perspective, pure promo" }),
   ("hashnode",
    { audience := "developers, technical bloggers",
      sweet_spot := ["tutorial", "tool_launch", "case_study"],
      content_types_avoid := [],
      needs := "technical depth, code, practical value",
      red_flags := "no code, not developer-focused" }),
   ("lobsters",
    { audience := "senior engineers, systems programmers, strict quality",
      sweet_spot := ["tool_launch", "case_study"],
      content_types_avoid := ["opinion", "announcement"],
      needs := "technical excellence, programming focus, novel approach",
      red_flags := "marketing, business focus, not programming-related" }),
   ("peerlist",
    { audience := "indian tech professionals, career showcasing",
      sweet_spot := ["tool_launch", "announcement", "case_study"],
      content_types_avoid := [],
      needs := "professional achievement angle, brevity",
      red_flags := "too long, no professional relevance" })]

/-- A Python JSON value as produced by `json.loads` (the numeric payload is
irrelevant to the embedded code paths, which never inspect numbers). -/
inductive PyJson where
  | null : PyJson
  | bool : Bool → PyJson
  | num : Int → PyJson
  | str : String → PyJson
  | arr : List PyJson → PyJson
  | obj : List (String × PyJson) → PyJson

/-- `PlatformRecommendation` dataclass (lines 6-12). Python does not enforce
the `str` type hints, so the fields hold whatever JSON values `item.get`
returned; the fallback path always fills them with strings. -/
structure PlatformRecommendation where
  platform : PyJson
  fit : PyJson
  reason : PyJson
  constraint_warning : PyJson

/-- The backtick character, written via its code point. -/
def btick : Char := Char.ofNat 96

/-- A triple-backtick code-fence delimiter. -/
def fenceDelim : List Char := [btick, btick, btick]

/-- Split `l` at the first occurrence of the (non-empty) literal `pat`:
returns the part before the occurrence and the part after it. -/
def splitFirst (pat : List Char) : List Char → Option (List Char × List Char)
  | [] => none
  | c :: t =>
    if listStartsWith pat (c :: t) then some ([], (c :: t).drop pat.length)
    else
      match splitFirst pat t with
      | some (a, b) => some (c :: a, b)
      | none => none

/-- The fence-extraction step of `parse_recommendations` (lines 189-192):
`re.search(r'```(?:json)?\s*([\s\S]*?)```', llm_response)` followed by
`.group(1).strip()` when it matches — take the text between the first fence
(with an optional `json` tag and leading whitespace) and the next fence;
without a complete fenced block the response is used unchanged. -/
def extract_fenced (s : String) : String :=
  match splitFirst fenceDelim s.toList with
  | none => s
  | some (_, rest) =>
    let rest₁ := if listStartsWith "json".toList rest then rest.drop 4 else rest
    let rest₂ := rest₁.dropWhile Char.isWhitespace
    match splitFirst fenceDelim rest₂ with
    | none => s
    | some (grp, _) => (String.mk grp).trim

/-- Python `item.get(k, dflt)` on a JSON object. -/
def pyGet (fields : List (String × PyJson)) (k : String) (dflt : PyJson) : PyJson :=
  (alFind k fields).getD dflt

/-- Build one `PlatformRecommendation` from a list item (lines 196-204);
a non-dict item makes `item.get` raise (`none` here). -/
def rec_of_item : PyJson → Option PlatformRecommendation
  | PyJson.obj fields => some
      { platform := pyGet fields "platform" (PyJson.str ""),
        fit := pyGet fields "fit" (PyJson.str "skip"),
        reason := pyGet fields "reason" (PyJson.str ""),
        constraint_warning := pyGet fields "constraint_warning" (PyJson.str "") }
  | _ => none

/-- The list comprehension over `data`, left to right, stopping at the first
item that raises. -/
def recs_of_items : List PyJson → Option (List PlatformRecommendation)
  | [] => some []
  | i :: t =>
    match rec_of_item i, recs_of_items t with
    | some r, some rs => some (r :: rs)
    | _, _ => none

/-- The `except json.JSONDecodeError` fallback of `parse_recommendations`
(lines 205-210): every key of `PLATFORM_PROFILES` as a `moderate` fit. -/
def fallback_recommendations : List PlatformRecommendation :=
  PLATFORM_PROFILES.map (fun pr =>
    { platform := PyJson.str pr.1, fit := PyJson.str "moderate",
      reason := PyJson.str "Failed to parse, defaulting",
      constraint_warning := PyJson.str "" })

/-- `PlatformRecommender.parse_recommendations` (lines 184-210). `loads`
models `json.loads` of the Python standard library (`none` = raises
`json.JSONDecodeError`). Only that exception is caught: a parseable value
that is not a list of dicts makes the iteration or `item.get` raise a
`TypeError`/`AttributeError`, which propagates (`Except.error`); iterating
an empty dict or empty string yields an empty result. -/
def parse_recommendations (loads : String → Option PyJson) (llm_response : String) :
    Except Unit (List PlatformRecommendation) :=
  match loads (extract_fenced llm_response) with
  | none => Except.ok fallback_recommendations
  | some (PyJson.arr items) =>
    match recs_of_items items with
    | some rs => Except.ok rs
    | none => Except.error ()
  | some (PyJson.obj []) => Except.ok []
  | some (PyJson.str "") => Except.ok []
  | some _ => Except.error ()

/-- C7: whenever `json.loads` cannot parse the (fence-stripped) decision
output, `parse_recommendations` does not raise: it returns every key of the
platform-profile catalog — all twelve known platforms, enumerated below —
with fit tier `moderate`. -/
theorem parse_fallback (loads : String → Option PyJson) (resp : String)
    (h : loads (extract_fenced resp) = none) :
    parse_recommendations loads resp = Except.ok fallback_recommendations ∧
    fallback_recommendations = PLATFORM_PROFILES.map (fun pr =>
      { platform := PyJson.str pr.1, fit := PyJson.str "moderate",
        reason := PyJson.str "Failed to parse, defaulting",
        constraint_warning := PyJson.str "" }) ∧
    PLATFORM_PROFILES.map Prod.fst =
      ["hackernews", "twitter", "reddit", "medium", "devto", "linkedin",
        "producthunt", "indiehackers", "substack", "hashnode", "lobsters", "peerlist"] := by
  refine ⟨?_, rfl, rfl⟩
  simp only [parse_recommendations, h]

/-- Witness for C7: a `loads` that always fails, on a junk response. -/
theorem parse_fallback_witness :
    ((fun _ : String => (none : Option PyJson)) (extract_fenced "not json") = none) ∧
    parse_recommendations (fun _ : String => (none : Option PyJson)) "not json"
      = Except.ok fallback_recommendations :=
  ⟨rfl, (parse_fallback (fun _ => none) "not json" rfl).1⟩

/-! ## Publishing engine (src/core/publishing_engine.py) -/

/-- A platform adapter as the engine uses it: generation (the `api_key`
argument is environment glue and omitted), validation, and delivery. Each
operation may raise, modelled by `Except String`. -/
structure Adapter (μ : Type) where
  generate_content : ContentDNA → Except String (PlatformContent μ)
  validate_content : PlatformContent μ → Except String ValidationResult
  post_content : PlatformContent μ → Except String (PublishResult μ)

/-- Loop body of `PublishingEngine.generate_platform_content` (lines 63-84),
instrumented with a log of external-generator invocations: an unknown
platform is skipped; otherwise `adapter.generate_content` is always invoked
(logged), then validated; an exception from either is caught and the platform
omitted from the results. -/
def generate_go (adapters : List (String × Adapter μ)) (dna : ContentDNA) :
    List String → List (String × PlatformContent μ) → List String →
    List (String × PlatformContent μ) × List String
  | [], results, genLog => (results, genLog)
  | p :: t, results, genLog =>
    match alFind p adapters with
    | none => generate_go adapters dna t results genLog
    | some a =>
      let genLog₁ := genLog ++ [p]
      match a.generate_content dna with
      | Except.error _ => generate_go adapters dna t results genLog₁
      | Except.ok c =>
        match a.validate_content c with
        | Except.error _ => generate_go adapters dna t results genLog₁
        | Except.ok v =>
          generate_go adapters dna t (alInsert p { c with validation := some v } results) genLog₁

/-- `PublishingEngine.generate_platform_content` (lines 54-86): for each
requested platform (default: every loaded adapter), generate, validate,
attach the validation, and collect the results. Returns the result map and
the list of generator invocations. Note: this method never consults the
`CacheManager` content cache. -/
def generate_platform_content (adapters : List (String × Adapter μ)) (dna : ContentDNA)
    (platforms : Option (List String)) :
    List (String × PlatformContent μ) × List String :=
  generate_go adapters dna (platforms.getD (adapters.map Prod.fst)) [] []

/-- A trivial always-succeeding adapter over `Unit` metadata, for concrete
scenarios. -/
def adW : Adapter Unit :=
  { generate_content := fun _ => Except.ok cW,
    validate_content := fun _ => Except.ok ⟨true, [], [], []⟩,
    post_content := fun _ => Except.ok { platform := "twitter", success := true } }

/-- A one-adapter engine, for concrete scenarios. -/
def engW : List (String × Adapter Unit) := [("twitter", adW)]

/-- Counterexample to C5 as stated: two successive
`generate_platform_content` calls for the same DNA and platform invoke the
external generator twice, not once — the engine never consults the
platform-content cache, so there is no cache hit on the second call. -/
theorem generation_cache_cex :
    ((generate_platform_content engW dnaW (some ["twitter"])).2 ++
      (generate_platform_content engW dnaW (some ["twitter"])).2).length = 2 ∧
    ¬ ((generate_platform_content engW dnaW (some ["twitter"])).2 ++
      (generate_platform_content engW dnaW (some ["twitter"])).2).length = 1 := by
  exact ⟨rfl, by decide⟩

/-- C5 (amended): `generate_platform_content` does not consult the
platform-content cache: every call for an available platform invokes the
external generator once apiece, so two successive calls for the same (DNA,
platform) pair invoke it exactly twice; the cache layer itself
(`get_cached_platform_content` after `cache_platform_content`) would serve
the cached artifact inside the TTL window. -/
theorem generation_invokes_generator_each_call (adapters : List (String × Adapter μ))
    (dna : ContentDNA) (p : String) (a : Adapter μ) (h : alFind p adapters = some a)
    (now w ttl : Int) (dkey : String) (c : PlatformContent μ) (st : CMState μ) :
    (generate_platform_content adapters dna (some [p])).2 = [p] ∧
    ((generate_platform_content adapters dna (some [p])).2 ++
      (generate_platform_content adapters dna (some [p])).2).length = 2 ∧
    (now < w + ttl * 3600 →
      (CacheManager.get_cached_platform_content now dkey p
        (CacheManager.cache_platform_content w dkey p c ttl st).2).1
        = some { c with scheduled_time := none }) := by
  have h1 : (generate_platform_content adapters dna (some [p])).2 = [p] := by
    simp only [generate_platform_content, Option.getD, generate_go, h]
    split
    · rfl
    · split
      · rfl
      · rfl
  refine ⟨h1, by rw [h1]; rfl, fun hlt => ?_⟩
  have hr := cache_platform_roundtrip now w ttl dkey p c st
  rw [if_pos hlt] at hr
  exact hr

/-- Witness for C5 (amended): the concrete one-adapter engine. -/
theorem generation_invokes_generator_each_call_witness :
    alFind "twitter" engW = some adW ∧
    (generate_platform_content engW dnaW (some ["twitter"])).2 = ["twitter"] ∧
    ((0 : Int) < 0 + 1 * 3600) ∧
    (CacheManager.get_cached_platform_content 0 "d" "twitter"
      (CacheManager.cache_platform_content 0 "d" "twitter" cW 1 stW).2).1
      = some { cW with scheduled_time := none } := by
  have h := generation_invokes_generator_each_call engW dnaW "twitter" adW rfl
    0 0 1 "d" cW stW
  exact ⟨rfl, h.1, by decide, h.2.2 (by decide)⟩

/-- Loop body of `PublishingEngine.publish_content` for one platform
(lines 155-195), instrumented with whether `adapter.post_content` was
invoked: a platform absent from the content map is skipped (`none`); a
missing adapter yields a failure result without posting; accessing
`.is_valid` on a `None` validation raises (uncaught → `Except.error`); an
invalid validation yields `success=False, error='Content validation failed'`
without posting; otherwise `post_content` is invoked and an exception from it
is caught into a failure result. -/
def publishOne (adapters : List (String × Adapter μ))
    (platform_content : List (String × PlatformContent μ)) (p : String) :
    Except Unit (Option (PublishResult μ) × Bool) :=
  match alFind p platform_content with
  | none => Except.ok (none, false)
  | some content =>
    match alFind p adapters with
    | none =>
      let r₀ : PublishResult μ :=
        { platform := p, success := false, error := some "Platform adapter not available" }
      Except.ok (some r₀, false)
    | some a =>
      match content.validation with
      | none => Except.error ()
      | some v =>
        if v.is_valid then
          match a.post_content content with
          | Except.ok r => Except.ok (some r, true)
          | Except.error e =>
            let r₀ : PublishResult μ := { platform := p, success := false, error := some e }
            Except.ok (some r₀, true)
        else
          let r₀ : PublishResult μ :=
            { platform := p, success := false, error := some "Content validation failed" }
          Except.ok (some r₀, false)

/-- The `publish_content` loop over the requested platforms, accumulating
the result dict and the list of platforms whose `post_content` ran. -/
def publish_go (adapters : List (String × Adapter μ))
    (platform_content : List (String × PlatformContent μ)) :
    List String → List (String × PublishResult μ) → List String →
    Except Unit (List (String × PublishResult μ) × List String)
  | [], results, postLog => Except.ok (results, postLog)
  | p :: t, results, postLog =>
    match publishOne adapters platform_content p with
    | Except.error e => Except.error e
    | Except.ok (none, _) => publish_go adapters platform_content t results postLog
    | Except.ok (some r, b) =>
      publish_go adapters platform_content t (alInsert p r results)
        (postLog ++ (if b then [p] else []))

/-- `PublishingEngine.publish_content` (lines 148-197): default platform list
is the keys of the content map. -/
def publish_content (adapters : List (String × Adapter μ))
    (platform_content : List (String × PlatformContent μ))
    (platforms : Option (List String)) :
    Except Unit (List (String × PublishResult μ) × List String) :=
  publish_go adapters platform_content
    (platforms.getD (platform_content.map Prod.fst)) [] []

/-- Keys not in the remaining worklist keep their accumulated result. -/
theorem publish_go_find_notmem (adapters : List (String × Adapter μ))
    (pc : List (String × PlatformContent μ)) (ps : List String) :
    ∀ (acc : List (String × PublishResult μ)) (log : List String) res outLog,
    publish_go adapters pc ps acc log = Except.ok (res, outLog) →
    ∀ q, q ∉ ps → alFind q res = alFind q acc := by
  induction ps with
  | nil =>
    intro acc log res outLog h q _
    simp only [publish_go] at h
    injection h with h'
    injection h' with h₁ h₂
    rw [← h₁]
  | cons p₀ t ih =>
    intro acc log res outLog h q hq
    have hne : q ≠ p₀ := fun he => hq (he ▸ List.mem_cons_self p₀ t)
    have hnt : q ∉ t := fun ht => hq (List.mem_cons_of_mem p₀ ht)
    simp only [publish_go] at h
    split at h
    · exact absurd h (by simp)
    · exact ih _ _ _ _ h q hnt
    · rw [ih _ _ _ _ h q hnt, alFind_alInsert_ne _ _ _ _ hne]

/-- Each platform in the worklist ends with exactly the result its own
(pure, state-independent) `publishOne` outcome dictates. -/
theorem publish_go_find_mem (adapters : List (String × Adapter μ))
    (pc : List (String × PlatformContent μ)) (ps : List String) :
    ∀ (acc : List (String × PublishResult μ)) (log : List String) res outLog,
    publish_go adapters pc ps acc log = Except.ok (res, outLog) →
    ∀ q opt b, q ∈ ps → publishOne adapters pc q = Except.ok (opt, b) →
    alFind q res = (match opt with
                    | some r => some r
                    | none => alFind q acc) := by
  induction ps with
  | nil =>
    intro acc log res outLog h q opt b hq
    exact absurd hq (List.not_mem_nil q)
  | cons p₀ t ih =>
    intro acc log res outLog h q opt b hq hone
    simp only [publish_go] at h
    by_cases hqt : q ∈ t
    · split at h
      · exact absurd h (by simp)
      · exact ih _ _ _ _ h q opt b hqt hone
      · next r b₀ hp₀ =>
        rw [ih _ _ _ _ h q opt b hqt hone]
        by_cases hqp : q = p₀
        · subst hqp
          rw [hone] at hp₀
          injection hp₀ with hp'
          injection hp' with hopt hb
          subst hopt
          rfl
        · cases opt with
          | none => simp only [alFind_alInsert_ne _ _ _ _ hqp]
          | some r₁ => rfl
    · have hqp : q = p₀ := by
        rcases List.mem_cons.1 hq with h' | h'
        · exact h'
        · exact absurd h' hqt
      subst hqp
      rw [hone] at h
      cases opt with
      | none =>
        exact publish_go_find_notmem adapters pc t _ _ _ _ h q hqt
      | some r =>
        rw [publish_go_find_notmem adapters pc t _ _ _ _ h q hqt,
          alFind_alInsert_self]

/-- A platform whose `publishOne` outcome never posts does not appear in the
final post log (given it was not in the accumulated log). -/
theorem publish_go_log (adapters : List (String × Adapter μ))
    (pc : List (String × PlatformContent μ)) (ps : List String) :
    ∀ (acc : List (String × PublishResult μ)) (log : List String) res outLog,
    publish_go adapters pc ps acc log = Except.ok (res, outLog) →
    ∀ q, q ∉ log →
    (∀ opt b, publishOne adapters pc q = Except.ok (opt, b) → b = false) →
    q ∉ outLog := by
  induction ps with
  | nil =>
    intro acc log res outLog h q hlog _
    simp only [publish_go] at h
    injection h with h'
    injection h' with h₁ h₂
    rw [← h₂]
    exact hlog
  | cons p₀ t ih =>
    intro acc log res outLog h q hlog hnopost
    simp only [publish_go] at h
    split at h
    · exact absurd h (by simp)
    · exact ih _ _ _ _ h q hlog hnopost
    · next r b₀ hp₀ =>
      refine ih _ _ _ _ h q ?_ hnopost
      intro hmem
      rcases List.mem_append.1 hmem with h' | h'
      · exact hlog h'
      · by_cases hb : b₀ = true
        · rw [if_pos hb] at h'
          have hqp : q = p₀ := List.mem_singleton.1 h'
          subst hqp
          exact absurd (hnopost _ _ hp₀) (by simp [hb])
        · rw [if_neg hb] at h'
          exact absurd h' (List.not_mem_nil q)

/-- The result `publish_content` records for a platform whose validation
failed: `PublishResult(platform, success=False, error='Content validation
failed')`. -/
def validation_failed_result (p : String) : PublishResult μ :=
  { platform := p, success := false, url := none,
    error := some "Content validation failed", metadata := none }

/-- C9: in any `publish_content` run over a content map in which platform
`p` carries a failed validation (`is_valid == False`), the adapter for `p`
is never asked to post (`p` is absent from the post log); the result map
holds `PublishResult(success=False, error='Content validation failed')` for
`p`; and every other requested platform is unaffected — its final result is
exactly the outcome of its own, state-independent, per-platform step. -/
theorem publish_skips_invalid (adapters : List (String × Adapter μ))
    (platform_content : List (String × PlatformContent μ)) (ps : List String)
    (p : String) (c : PlatformContent μ) (v : ValidationResult)
    (res : List (String × PublishResult μ)) (postLog : List String)
    (hc : alFind p platform_content = some c)
    (hv : c.validation = some v)
    (hinv : v.is_valid = false)
    (a : Adapter μ) (ha : alFind p adapters = some a)
    (hmem : p ∈ ps)
    (h : publish_content adapters platform_content (some ps) = Except.ok (res, postLog)) :
    alFind p res = some (validation_failed_result p) ∧
    p ∉ postLog ∧
    (∀ q opt b, q ∈ ps →
      publishOne adapters platform_content q = Except.ok (opt, b) →
      alFind q res = opt) := by
  have hone : publishOne adapters platform_content p
      = Except.ok (some (validation_failed_result p), false) := by
    simp [publishOne, hc, ha, hv, hinv, validation_failed_result]
  simp only [publish_content, Option.getD] at h
  refine ⟨?_, ?_, ?_⟩
  · exact publish_go_find_mem adapters platform_content ps [] [] res postLog h
      p _ _ hmem hone
  · refine publish_go_log adapters platform_content ps [] [] res postLog h p
      (List.not_mem_nil p) ?_
    intro opt b h'
    rw [hone] at h'
    injection h' with h''
    injection h'' with _ hb
    exact hb.symm
  · intro q opt b hq h'
    have hfind := publish_go_find_mem adapters platform_content ps [] [] res postLog h
      q opt b hq h'
    cases opt with
    | none => exact hfind
    | some r => exact hfind

/-- Invalid Twitter content, for the C9 witness. -/
def cInv : PlatformContent Unit :=
  { platform := "twitter", title := "t", body := "b", metadata := (),
    validation := some ⟨false, [], ["bad"], []⟩ }

/-- Two-adapter engine, for the C9 witness. -/
def pubAd : List (String × Adapter Unit) := [("twitter", adW), ("devto", adW)]

/-- Content map with invalid twitter content and valid devto content. -/
def pcW : List (String × PlatformContent Unit) := [("twitter", cInv), ("devto", cW)]

/-- The result map of the C9 witness run. -/
def resW : List (String × PublishResult Unit) :=
  [("twitter", validation_failed_result "twitter"),
   ("devto", { platform := "twitter", success := true, url := none, error := none, metadata := none })]

/-- The post log of the C9 witness run: only devto was posted. -/
def logW : List String := ["devto"]

/-- Witness for C9: on the concrete two-platform run the invalid platform is
skipped with the expected result while the valid one is posted. -/
theorem publish_skips_invalid_witness :
    alFind "twitter" resW = some (validation_failed_result "twitter") ∧
    "twitter" ∉ logW := by
  have h := publish_skips_invalid pubAd pcW ["twitter", "devto"] "twitter" cInv
    ⟨false, [], ["bad"], []⟩ resW logW rfl rfl rfl adW rfl (by decide) rfl
  exact ⟨h.1, h.2.1⟩
